import Mathlib

/-!
Shallow embedding of the Orbit AI/ML pipeline (src/docs/05_AIML_LEAD.md):
quick filter, NLP analysis, pattern classification, email-to-application
matching, ghost detection, insight generation and the LLM fallback.

Python dictionary access `d['k']` on a possibly-absent key is modelled by
`dictGet`, which returns `Except.error "KeyError: k"` when the key is absent,
mirroring the `KeyError` Python raises.  Floats are modelled as `ℚ`.
External capabilities (spaCy entity extraction, rapidfuzz similarity, the
remote LLM) are parameters of the functions that call them.
-/

set_option allowUnsafeReducibility true in
attribute [semireducible] Rat.mul

set_option allowUnsafeReducibility true in
attribute [semireducible] Rat.inv

namespace Orbit

/-- Python `str.lower()` (ASCII case folding). -/
def pyLower (s : String) : String :=
  String.mk (s.data.map Char.toLower)

/-- Does the first list lead the second one? -/
def takesLead : List Char → List Char → Bool
  | [], _ => true
  | _ :: _, [] => false
  | a :: as, b :: bs => a == b && takesLead as bs

/-- Occurrence of `needle` anywhere in the character list. -/
def subList (needle : List Char) : List Char → Bool
  | [] => needle.isEmpty
  | c :: cs => takesLead needle (c :: cs) || subList needle cs

/-- Python substring test `needle in hay`. -/
def strContains (hay needle : String) : Bool :=
  subList needle.data hay.data

/-- Accumulating pass behind `pySplit`; `acc` is the current token
reversed. -/
def splitWsGo : List Char → List Char → List (List Char)
  | [], acc => if acc.isEmpty then [] else [acc.reverse]
  | c :: cs, acc =>
    if c.isWhitespace then
      if acc.isEmpty then splitWsGo cs [] else acc.reverse :: splitWsGo cs []
    else
      splitWsGo cs (c :: acc)

/-- Python `str.split()` with no argument: split on whitespace runs,
discarding empty tokens. -/
def pySplit (s : String) : List String :=
  (splitWsGo s.data []).map String.mk

/-- Recursion behind `pySplitOn`, spending one unit of fuel per character;
the separator is non-empty at every call site, so `fuel = length` always
suffices and the fuel-exhaustion branch is never reached. -/
def splitOnGo (sep : List Char) : Nat → List Char → List Char → List (List Char)
  | _, [], acc => [acc.reverse]
  | 0, hay, acc => [acc.reverse ++ hay]
  | fuel + 1, c :: cs, acc =>
    if takesLead sep (c :: cs) then
      acc.reverse :: splitOnGo sep fuel ((c :: cs).drop sep.length) []
    else
      splitOnGo sep fuel cs (c :: acc)

/-- Python `str.split(sep)` for a non-empty separator: non-overlapping
left-to-right splitting, keeping empty pieces. -/
def pySplitOn (s : String) (sep : String) : List String :=
  (splitOnGo sep.data (s.data.length + 1) s.data []).map String.mk

/-- All suffixes of the text at which `.*seg` has been consumed starting at
the front: a newline-free gap (Python `.` without `DOTALL` does not match
a newline), then the literal segment. -/
def afterMatches (seg : List Char) : List Char → List (List Char)
  | [] => if seg.isEmpty then [[]] else []
  | c :: cs =>
    (if takesLead seg (c :: cs) then [(c :: cs).drop seg.length] else []) ++
      (if c == '\n' then [] else afterMatches seg cs)

/-- Match the remaining `.*`-separated literal segments against the text
starting at its front. -/
def matchSegsFrom : List (List Char) → List Char → Bool
  | [], _ => true
  | seg :: rest, s => (afterMatches seg s).any (fun t => matchSegsFrom rest t)

/-- Scan of `re.search`: the first segment may start at any position (the
scan itself is not restricted by newlines), the rest follow with
newline-free gaps. -/
def searchStarts (seg : List Char) (rest : List (List Char)) : List Char → Bool
  | [] => takesLead seg [] && matchSegsFrom rest []
  | c :: cs =>
    (takesLead seg (c :: cs) && matchSegsFrom rest ((c :: cs).drop seg.length)) ||
      searchStarts seg rest cs

/-- `re.search(pattern, text) is not None` for the patterns of `PATTERNS`,
which are all of the shape `lit₁.*lit₂.*…` with no other regex
metacharacters. -/
def re_search (pattern : String) (text : String) : Bool :=
  match (pySplitOn pattern ".*").map String.data with
  | [] => true
  | seg :: rest => searchStarts seg rest text.data

/-- One inbound email, a Python dict.  `from_address`, `subject` and
`body_preview` model possibly-absent keys (`none` = key missing, so indexing
raises `KeyError`); `from_name` models a present key whose value may be
`None`, which `analyze_sender` defaults with `name or ''`. -/
structure Email where
  from_address : Option String := none
  from_name : Option String := none
  subject : Option String := none
  body_preview : Option String := none

/-- Python `d['k']`: the value when present, otherwise a `KeyError`. -/
def dictGet (v : Option String) (key : String) : Except String String :=
  match v with
  | some s => Except.ok s
  | none => Except.error ("KeyError: " ++ key)

/-- Blocklist from ml/filters/quick_filter.py. -/
def BLOCKED_DOMAINS : List String :=
  ["noreply", "newsletter", "notifications", "marketing",
   "no-reply", "donotreply", "mailer", "updates",
   "unsubscribe", "promo", "deals", "offers"]

/-- Promotional subject patterns from `quick_filter`. -/
def promo_patterns : List String :=
  ["unsubscribe", "newsletter", "weekly digest",
   "job alert", "new jobs matching", "sale", "discount"]

/-- Layer 1 quick filter: `true` means process further. -/
def quick_filter (email : Email) : Except String Bool := do
  let from_addr := pyLower (← dictGet email.from_address "from_address")
  if BLOCKED_DOMAINS.any (fun domain => strContains from_addr domain) then
    return false
  let subject := pyLower (← dictGet email.subject "subject")
  if promo_patterns.any (fun p => strContains subject p) then
    return false
  return true

/-- Sender-type flags returned by `analyze_sender`. -/
structure SenderSignals where
  is_recruiter : Bool
  is_big_tech : Bool
  is_automated : Bool
deriving Repr, DecidableEq

/-- Keyword set from ml/analyzers/nlp_analyzer.py. -/
def JOB_KEYWORDS : List String :=
  ["application", "interview", "position", "role", "opportunity",
   "recruiter", "hiring", "assessment", "coding", "offer",
   "candidate", "resume", "cv", "next steps", "screening"]

/-- Classify sender type (`analyze_sender`). -/
def analyze_sender (email : String) (name : Option String) : SenderSignals :=
  let email_lower := pyLower email
  let name_lower := pyLower (name.getD "")
  let recruiter_patterns := ["recruiter", "talent", "hr", "hiring", "careers"]
  let company_patterns := ["@google.com", "@meta.com", "@amazon.com", "@microsoft.com"]
  { is_recruiter := recruiter_patterns.any
      (fun p => strContains email_lower p || strContains name_lower p)
    is_big_tech := company_patterns.any (fun p => strContains email_lower p)
    is_automated := strContains email_lower "noreply" ||
      strContains email_lower "donotreply" }

/-- Entity spans returned by the external NER capability (spaCy). -/
structure Entities where
  organizations : List String
  persons : List String
  dates : List String
deriving Repr, DecidableEq

/-- Output of `analyze_email`. -/
structure NlpResult where
  entities : Entities
  keyword_count : Nat
  keyword_density : ℚ
  sender_signals : SenderSignals
  is_likely_job_related : Bool
deriving Repr, DecidableEq

/-- Layer 2 NLP analysis (`analyze_email`); the spaCy model `nlp` is the
external parameter `ner`. -/
def analyze_email (ner : String → Entities) (email : Email) :
    Except String NlpResult := do
  let subject ← dictGet email.subject "subject"
  let body_preview ← dictGet email.body_preview "body_preview"
  let text := subject ++ " " ++ body_preview
  let entities := ner text
  let text_lower := pyLower text
  let keyword_count := (JOB_KEYWORDS.filter (fun kw => strContains text_lower kw)).length
  let from_address ← dictGet email.from_address "from_address"
  let sender_signals := analyze_sender from_address email.from_name
  pure
    { entities := entities
      keyword_count := keyword_count
      keyword_density := (keyword_count : ℚ) / (max (pySplit text).length 1 : ℚ)
      sender_signals := sender_signals
      is_likely_job_related :=
        decide (2 ≤ keyword_count) || sender_signals.is_recruiter }

/-- Ordered pattern table from ml/classifiers/email_classifier.py; insertion
order of the Python dict is preserved. -/
def PATTERNS : List (String × List String) :=
  [("application_received",
    ["application.*received", "thank.*for.*applying",
     "we.*received.*your.*application", "application.*submitted"]),
   ("application_rejected",
    ["unfortunately", "not.*moving forward", "decided.*not.*proceed",
     "other candidates", "not.*selected", "will not be moving forward"]),
   ("interview_invite",
    ["interview", "schedule.*call", "meet.*team", "next.*round",
     "phone.*screen", "video.*call"]),
   ("assessment_invite",
    ["online.*assessment", "coding.*challenge", "hackerrank",
     "codesignal", "technical.*assessment", "complete.*test"]),
   ("offer_letter",
    ["offer.*letter", "pleased.*to.*offer", "extend.*offer",
     "congratulations.*offer"])]

/-- Core of `classify_email` once the lowered text is in hand: first
matching pattern of the first matching category wins, with confidence 0.9
for patterns longer than 20 characters and 0.8 otherwise; with no match,
fall back on the keyword heuristic. -/
def classify_core (text : String) (nlp_result : NlpResult) : String × ℚ :=
  match PATTERNS.findSome? (fun cp =>
      cp.2.findSome? (fun pattern =>
        if re_search pattern text then
          some (cp.1, if pattern.length > 20 then (9 : ℚ)/10 else (8 : ℚ)/10)
        else none)) with
  | some result => result
  | none =>
    if nlp_result.is_likely_job_related then
      ("general_hr", (6 : ℚ)/10)
    else
      ("not_job_related", (8 : ℚ)/10)

/-- Layer 3 classification (`classify_email`). -/
def classify_email (email : Email) (nlp_result : NlpResult) :
    Except String (String × ℚ) := do
  let subject ← dictGet email.subject "subject"
  let body_preview ← dictGet email.body_preview "body_preview"
  pure (classify_core (pyLower (subject ++ " " ++ body_preview)) nlp_result)

/-- Python `str.title()` restricted to ASCII letters: the first letter of
every letter run is upper-cased, the rest lower-cased. -/
def pyTitleGo : Bool → List Char → List Char
  | _, [] => []
  | prevCased, c :: cs =>
    if c.isAlpha then
      (if prevCased then c.toLower else c.toUpper) :: pyTitleGo true cs
    else
      c :: pyTitleGo false cs

/-- Python `str.title()`. -/
def pyTitle (s : String) : String :=
  String.mk (pyTitleGo false s.data)

/-- Extract a company name from an email domain
(`extract_company_from_email`); the `try` around `email.split('@')[1]`
makes a missing `@` yield `None`. -/
def extract_company_from_email (email : String) : Option String :=
  match pySplitOn email "@" with
  | _ :: second :: _ =>
    let domain := (pySplitOn second ".").headD ""
    if ["gmail", "yahoo", "outlook", "hotmail"].contains domain then none
    else some (pyTitle domain)
  | _ => none

/-- One tracked application row.  Field names follow the dict keys used in
the source; `linked_message_dates` records the receipt dates of linked
emails (the ghost detector's docstring mentions them; its query does not
read them). -/
structure Application where
  id : String
  company_name : String := ""
  status : String := ""
  status_updated_at : Int := 0
  deleted_at : Option Int := none
  source : Option String := none
  applied_date : Int := 0
  linked_message_dates : List Int := []
deriving Repr, DecidableEq

/-- Inner loop of the fuzzy branch of `match_email_to_application`: scan the
candidate companies, keeping the best (strictly greater) score above 70. -/
def fuzzScan (fuzz_ratio : String → String → ℚ) (app_company appId : String) :
    List String → Option String × ℚ → Option String × ℚ
  | [], best => best
  | c :: cs, (best_match, best_score) =>
    let score := fuzz_ratio app_company c
    if score > best_score ∧ score > 70 then
      fuzzScan fuzz_ratio app_company appId cs (some appId, score)
    else
      fuzzScan fuzz_ratio app_company appId cs (best_match, best_score)

/-- Outer loop of `match_email_to_application` over the applications: an
exact candidate-set hit returns at once with confidence 0.95; otherwise the
fuzzy accumulator is threaded through and resolved at the end. -/
def matchLoop (fuzz_ratio : String → String → ℚ) (email_companies : List String) :
    List Application → Option String × ℚ → Option String × ℚ
  | [], (best_match, best_score) =>
    match best_match with
    | some matchedId => (some matchedId, best_score / 100)
    | none => (none, 0)
  | app :: rest, best =>
    let app_company := pyLower app.company_name
    if email_companies.contains app_company then
      (some app.id, (95 : ℚ)/100)
    else
      matchLoop fuzz_ratio email_companies rest
        (fuzzScan fuzz_ratio app_company app.id email_companies best)

/-- The candidate-company set built at the top of
`match_email_to_application`: lower-cased extracted organizations plus the
sender-domain-derived name.  The guard `if sender_domain:` is Python
truthiness, so it excludes the empty string (as arises for an address like
`user@`) as well as `None`.  The Python set is modelled as a list: it is
used only for membership tests and a strict-greater maximum, neither of
which duplicates affect. -/
def email_companies_of (email : Email) (nlp_result : NlpResult) :
    Except String (List String) := do
  let orgs := nlp_result.entities.organizations.map pyLower
  let from_address ← dictGet email.from_address "from_address"
  match extract_company_from_email from_address with
  | some sender_domain =>
    if sender_domain = "" then pure orgs
    else pure (orgs ++ [pyLower sender_domain])
  | none => pure orgs

/-- Match an email to an existing application
(`match_email_to_application`); `fuzz_ratio` is the external rapidfuzz
`fuzz.ratio` capability, scored 0–100. -/
def match_email_to_application (fuzz_ratio : String → String → ℚ)
    (email : Email) (applications : List Application) (nlp_result : NlpResult) :
    Except String (Option String × ℚ) := do
  let email_companies ← email_companies_of email nlp_result
  pure (matchLoop fuzz_ratio email_companies applications (none, 0))

/-- Audit event row created by the ghost detector. -/
structure Event where
  application_id : String
  event_type : String
  reason : String
  previous_status : String
deriving Repr, DecidableEq

/-- Selection predicate of the ghost-detector query: status applied or
screening, status older than the 14-day cutoff, not soft-deleted.
Timestamps are counted in days, so `cutoff_date = now - 14`. -/
def ghost_select (now : Int) (app : Application) : Bool :=
  (app.status == "applied" || app.status == "screening") &&
  decide (app.status_updated_at < now - 14) &&
  app.deleted_at.isNone

/-- Mutation performed on one selected application.  The source assigns
`app.status = 'ghosted'` and `app.status_updated_at = datetime.now()`
before building the event, so the event's `previous_status` field reads the
already-updated status. -/
def ghost_transition (now : Int) (app : Application) : Application × Event :=
  let updated := { app with status := "ghosted", status_updated_at := now }
  (updated,
   { application_id := app.id
     event_type := "auto_ghosted"
     reason := "No response for 14+ days"
     previous_status := updated.status })

/-- One ghost-detection sweep (`detect_ghosted_applications`) at time
`now`: returns the updated application table, the emitted events, and the
list of transitioned ids that the function returns. -/
def detect_ghosted_applications (now : Int) (apps : List Application) :
    List Application × List Event × List String :=
  let targets := apps.filter (ghost_select now)
  (apps.map (fun a => if ghost_select now a then (ghost_transition now a).1 else a),
   targets.map (fun a => (ghost_transition now a).2),
   targets.map (fun a => a.id))

/-- Per-source statistics computed by `calculate_source_performance`. -/
structure SourceStats where
  total : Nat
  responded : Nat
  response_rate : ℚ
deriving Repr, DecidableEq

/-- One generated insight. -/
structure Insight where
  title : String
  description : String
  type : String
  data : Option (List (String × SourceStats)) := none
deriving Repr, DecidableEq

/-- Python `f"{q:.0%}"` up to rounding mode (Python rounds half to even;
the generated descriptions are not inspected by any claim). -/
def fmtPercent (q : ℚ) : String :=
  toString (round (q * 100)) ++ "%"

/-- `app.get('source', 'unknown')`. -/
def sourceKey (app : Application) : String :=
  app.source.getD "unknown"

/-- Recursion behind `firstOccur`, skipping already-seen keys. -/
def firstOccurGo : List String → List String → List String
  | [], _ => []
  | s :: rest, seen =>
    if seen.contains s then firstOccurGo rest seen
    else s :: firstOccurGo rest (s :: seen)

/-- Keys of a Python dict built by insertion: first-occurrence order,
without duplicates. -/
def firstOccur (l : List String) : List String :=
  firstOccurGo l []

/-- Response rates by source (`calculate_source_performance`): the
defaultdict grouped by `app.get('source', 'unknown')`, keys in
first-occurrence order, with `responded` counting statuses outside
applied/ghosted and a guarded response-rate division. -/
def calculate_source_performance (applications : List Application) :
    List (String × SourceStats) :=
  (firstOccur (applications.map sourceKey)).map (fun src =>
    let group := applications.filter (fun a => sourceKey a == src)
    let total := group.length
    let responded := (group.filter (fun a =>
      !(a.status == "applied" || a.status == "ghosted"))).length
    (src,
     { total := total
       responded := responded
       response_rate := if total > 0 then (responded : ℚ) / total else 0 }))

/-- Python `max(items, key=response_rate)`: first maximal element in
iteration order (later elements replace only on strictly greater rate). -/
def maxByRate : List (String × SourceStats) → Option (String × SourceStats)
  | [] => none
  | x :: xs =>
    some (xs.foldl (fun best y =>
      if y.2.response_rate > best.2.response_rate then y else best) x)

/-- Modelled from the spec: `is_this_week` is called by `generate_insights`
but defined nowhere in the repository; per the spec, weekly momentum
compares applications dated in the current 7-day window (dates in days,
window ending at `now`). -/
def is_this_week (now d : Int) : Bool :=
  decide (now - 7 < d ∧ d ≤ now)

/-- Modelled from the spec: `is_last_week` is called by `generate_insights`
but defined nowhere in the repository; per the spec, the prior 7-day
window. -/
def is_last_week (now d : Int) : Bool :=
  decide (now - 14 < d ∧ d ≤ now - 7)

/-- Modelled from the spec: `calculate_interview_rate` is called by
`generate_insights` but defined nowhere in the repository; per the spec,
interview-count divided by total-count. -/
def calculate_interview_rate (applications : List Application) : ℚ :=
  if applications.length > 0 then
    ((applications.filter (fun a => a.status == "interview")).length : ℚ) /
      applications.length
  else 0

/-- Insight generation (`generate_insights`): the empty-corpus onboarding
tip, else the four rules in order, truncated to 5. -/
def generate_insights (now : Int) (applications : List Application) :
    List Insight :=
  if applications.isEmpty then
    [{ title := "Start applying!"
       description := "Add your first job application to start tracking."
       type := "tip" }]
  else
    let source_stats := calculate_source_performance applications
    let insights₁ : List Insight :=
      match maxByRate source_stats with
      | some best_source =>
        let direct_rate :=
          ((source_stats.lookup "direct").map (fun s => s.response_rate)).getD 0
        [{ title := "Referrals work best for you"
           description := best_source.1 ++ " has a " ++
             fmtPercent best_source.2.response_rate ++ " response rate vs " ++
             fmtPercent direct_rate ++ " for cold applies."
           type := "success"
           data := some source_stats }]
      | none => []
    let ghosted_count := (applications.filter (fun a => a.status == "ghosted")).length
    let ghosted_rate : ℚ := (ghosted_count : ℚ) / applications.length
    let insights₂ : List Insight :=
      if ghosted_rate > 3/10 then
        [{ title := "High ghost rate"
           description := toString ghosted_count ++ " applications (" ++
             fmtPercent ghosted_rate ++
             ") received no response. Consider following up earlier."
           type := "warning" }]
      else []
    let this_week := (applications.filter (fun a => is_this_week now a.applied_date)).length
    let last_week := (applications.filter (fun a => is_last_week now a.applied_date)).length
    let insights₃ : List Insight :=
      if this_week > last_week then
        [{ title := "Great momentum!"
           description := "You applied to " ++ toString this_week ++
             " jobs this week, up from " ++ toString last_week ++ " last week."
           type := "success" }]
      else if this_week < last_week ∧ this_week < 5 then
        [{ title := "Keep the momentum"
           description := "Only " ++ toString this_week ++
             " applications this week. Aim for at least 5 per week."
           type := "tip" }]
      else []
    let interview_rate := calculate_interview_rate applications
    let insights₄ : List Insight :=
      if interview_rate > 15/100 then
        [{ title := "Strong interview rate"
           description := "You are converting " ++ fmtPercent interview_rate ++
             " of applications to interviews. Industry average is about 10%."
           type := "success" }]
      else []
    (insights₁ ++ insights₂ ++ insights₃ ++ insights₄).take 5

/-- Parsed response of the remote classifier. -/
structure LlmResult where
  category : String
  confidence : ℚ
  reason : String
deriving Repr, DecidableEq

/-- LLM fallback `classify_with_llm` from ml/llm/groq_client.py.  The remote
chat-completion call plus JSON parse is the external parameter `service`:
it receives the user prompt built from the email and yields `none` on any
failure (timeout, service error, malformed response).  Everything that
fails inside the `try` block — including a missing subject or body key —
lands in the bare `except`, which returns the fixed unknown-category
fallback dict. -/
def classify_with_llm (service : String → Option LlmResult) (email : Email) :
    LlmResult :=
  let attempt : Except String LlmResult := do
    let subject ← dictGet email.subject "subject"
    let body_preview ← dictGet email.body_preview "body_preview"
    let prompt := "Subject: " ++ subject ++ "\n\nBody: " ++ body_preview.take 500
    match service prompt with
    | some result => pure result
    | none => Except.error "LLM call failed"
  match attempt with
  | Except.ok result => result
  | Except.error _ => { category := "unknown", confidence := 0, reason := "LLM error" }

/-! Concrete inputs used by counterexamples and witnesses. -/

/-- An entity extractor that finds nothing, a possible output of the
external NER capability. -/
def nerEmpty : String → Entities := fun _ => { organizations := [], persons := [], dates := [] }

/-- Application applied 20 days before the day-100 sweep, with an email
linked 2 days before it. -/
def appStaleMsg : Application :=
  { id := "g1", status := "applied", status_updated_at := 80,
    linked_message_dates := [98] }

/-- Application applied 20 days before the day-100 sweep, with no linked
messages since. -/
def appStale : Application :=
  { id := "g2", status := "applied", status_updated_at := 80 }

/-! Ghost-detector lemmas. -/

/-- An application just transitioned to `ghosted` is never selected again. -/
theorem ghost_select_transition (now t : Int) (a : Application) :
    ghost_select now (ghost_transition t a).1 = false := rfl

/-- After one sweep step, no application satisfies the selection predicate
at the same sweep time. -/
theorem ghost_select_after_step (now : Int) (a : Application) :
    ghost_select now
      (if ghost_select now a then (ghost_transition now a).1 else a) = false := by
  cases hb : ghost_select now a with
  | true => simpa [hb] using ghost_select_transition now now a
  | false => simp [hb]

/-- Every row of the table a sweep produces fails the selection predicate
at that sweep time. -/
theorem ghost_select_false_after (now : Int) (apps : List Application) :
    ∀ b ∈ (detect_ghosted_applications now apps).1, ghost_select now b = false := by
  intro b hb
  simp only [detect_ghosted_applications, List.mem_map] at hb
  obtain ⟨a, _, rfl⟩ := hb
  exact ghost_select_after_step now a

/-- A sweep over a table with no selectable row changes nothing and emits
nothing. -/
theorem detect_of_all_unselected (now : Int) (l : List Application)
    (h : ∀ b ∈ l, ghost_select now b = false) :
    detect_ghosted_applications now l = (l, [], []) := by
  have hf : l.filter (ghost_select now) = [] :=
    List.filter_eq_nil_iff.mpr (fun b hb => by simp [h b hb])
  have hm : l.map (fun a => if ghost_select now a then (ghost_transition now a).1 else a) = l := by
    have := List.map_congr_left (l := l)
      (f := fun a => if ghost_select now a then (ghost_transition now a).1 else a)
      (g := id) (fun a ha => by simp [h a ha])
    simpa using this
  show (l.map _, (l.filter _).map _, (l.filter _).map _) = (l, [], [])
  rw [hf, hm]
  rfl

/-! Claim theorems. -/

/-- C2: the sweep selects on status and staleness alone and never reads
linked messages — the selection predicate is invariant under replacing
`linked_message_dates` — so the application with status `applied`, status
changed at day 80, and a message linked at day 98 is still transitioned to
`ghosted` by a sweep at day 100, although the claim requires it to be
skipped. -/
theorem C2_sweep_ignores_linked_messages :
    (∀ (now : Int) (app : Application) (msgs : List Int),
        ghost_select now { app with linked_message_dates := msgs } =
          ghost_select now app) ∧
    (detect_ghosted_applications 100 [appStaleMsg]).1.map (fun a => a.status) =
      ["ghosted"] ∧
    appStaleMsg.status = "applied" ∧
    appStaleMsg.linked_message_dates = [98] :=
  ⟨fun _ _ _ => rfl, by decide, rfl, rfl⟩

/-- C3: every audit event a sweep emits records `previous_status =
"ghosted"`, the status after the transition, because the source assigns
`app.status = 'ghosted'` before building the event dict; the prior status
(applied or screening) is never recorded. -/
theorem C3_event_records_ghosted (now : Int) (apps : List Application)
    (ev : Event) (hev : ev ∈ (detect_ghosted_applications now apps).2.1) :
    ev.previous_status = "ghosted" := by
  simp only [detect_ghosted_applications, List.mem_map] at hev
  obtain ⟨a, _, rfl⟩ := hev
  rfl

/-- Witness for C3: the event emitted for the stale applied application at
the day-100 sweep records previous status `ghosted`, not `applied`. -/
theorem C3_event_records_ghosted_witness :
    Event.previous_status
      { application_id := "g1", event_type := "auto_ghosted",
        reason := "No response for 14+ days", previous_status := "ghosted" } =
      "ghosted" :=
  C3_event_records_ghosted 100 [appStaleMsg] _ (by decide)

/-- C8: the sweep is idempotent — running it a second time at the same
sweep instant on the table the first sweep produced changes no status and
emits no event — and the concrete application with status `applied`,
status changed 20 days before the sweep, and no linked messages is
transitioned by one sweep. -/
theorem C8_sweep_idempotent :
    (∀ (now : Int) (apps : List Application),
        detect_ghosted_applications now (detect_ghosted_applications now apps).1 =
          ((detect_ghosted_applications now apps).1, [], [])) ∧
    (detect_ghosted_applications 100 [appStale]).1.map (fun a => a.status) =
      ["ghosted"] ∧
    appStale.status = "applied" ∧ appStale.status_updated_at = 80 ∧
    appStale.linked_message_dates = [] :=
  ⟨fun now apps =>
      detect_of_all_unselected now _ (ghost_select_false_after now apps),
    by decide, rfl, rfl, rfl⟩

/-! Insight-generator lemmas. -/

/-- The per-source statistics of a non-empty application list form a
non-empty association list. -/
theorem csp_cons (a : Application) (as : List Application) :
    ∃ x xs, calculate_source_performance (a :: as) = x :: xs := by
  simp only [calculate_source_performance, firstOccur, List.map_cons, firstOccurGo]
  exact ⟨_, _, rfl⟩

/-- `maxByRate` of a non-empty list yields a value. -/
theorem maxByRate_cons (x : String × SourceStats) (xs : List (String × SourceStats)) :
    maxByRate (x :: xs) =
      some (xs.foldl (fun best y =>
        if y.2.response_rate > best.2.response_rate then y else best) x) := rfl

/-- C10: the insight generator never returns an empty list — an empty
application set yields the onboarding tip, and a non-empty one always
yields a non-empty per-source statistics map, so the best-performing-source
insight is always emitted (in first position). -/
theorem C10_insights_never_empty :
    (∀ (now : Int) (applications : List Application),
        generate_insights now applications ≠ []) ∧
    (∀ (now : Int) (a : Application) (as : List Application),
        ((generate_insights now (a :: as)).map (fun i => i.title)).head? =
          some "Referrals work best for you") := by
  have hhead : ∀ (now : Int) (a : Application) (as : List Application),
      ((generate_insights now (a :: as)).map (fun i => i.title)).head? =
        some "Referrals work best for you" := by
    intro now a as
    obtain ⟨x, xs, hx⟩ := csp_cons a as
    simp only [generate_insights, List.isEmpty_cons, Bool.false_eq_true, if_false, hx,
      maxByRate_cons]
    simp [List.take_succ_cons]
  refine ⟨?_, hhead⟩
  intro now applications
  cases applications with
  | nil => simp [generate_insights]
  | cons a as =>
    intro hcontra
    have := hhead now a as
    rw [hcontra] at this
    simp at this

/-- C9: the empty application set yields exactly the single onboarding tip
(no other rule runs), and every non-empty set whose ghosted share exceeds
0.3 yields a list containing the high-ghost-rate warning. -/
theorem C9_onboarding_and_ghost_warning :
    (∀ now : Int, generate_insights now [] =
      [{ title := "Start applying!",
         description := "Add your first job application to start tracking.",
         type := "tip" }]) ∧
    (∀ (now : Int) (applications : List Application),
      applications ≠ [] →
      ((applications.filter (fun a => a.status == "ghosted")).length : ℚ) /
          (applications.length : ℚ) > 3/10 →
      "High ghost rate" ∈ (generate_insights now applications).map (fun i => i.title)) := by
  constructor
  · intro now
    rfl
  · intro now applications hne hrate
    match applications, hne with
    | a :: as, _ =>
      obtain ⟨x, xs, hx⟩ := csp_cons a as
      simp only [generate_insights, List.isEmpty_cons, Bool.false_eq_true, if_false, hx,
        maxByRate_cons]
      rw [if_pos hrate]
      simp

/-- A single ghosted application (ghost share 1.0). -/
def appGhosted : Application := { id := "i1", status := "ghosted" }

/-- Witness for C9: the empty corpus gives the onboarding tip; the corpus
consisting of one ghosted application (share 1 > 0.3) gives a list
containing the high-ghost-rate warning. -/
theorem C9_onboarding_and_ghost_warning_witness :
    generate_insights 0 [] =
      [{ title := "Start applying!",
         description := "Add your first job application to start tracking.",
         type := "tip" }] ∧
    "High ghost rate" ∈ (generate_insights 100 [appGhosted]).map (fun i => i.title) :=
  ⟨C9_onboarding_and_ghost_warning.1 0,
   C9_onboarding_and_ghost_warning.2 100 [appGhosted] (by decide) (by decide)⟩

/-! Escalation-failure claims. -/

/-- Email whose text matches no classification pattern but carries two job
keywords (candidate, resume), so the pre-escalation result is the
low-confidence `general_hr` fallback. -/
def emailCandidateResume : Email :=
  { from_address := some "a@b.c", from_name := some "",
    subject := some "candidate resume", body_preview := some "" }

/-- The `analyze_email` output for `emailCandidateResume` under `nerEmpty`. -/
def nlpCandidateResume : NlpResult :=
  { entities := { organizations := [], persons := [], dates := [] }
    keyword_count := 2
    keyword_density := 1
    sender_signals := { is_recruiter := false, is_big_tech := false, is_automated := false }
    is_likely_job_related := true }

/-- Counterexample to C4: when the remote call fails, `classify_with_llm`
returns the fixed `unknown`-category fallback, not the Pattern
Classifier's pre-escalation result (`general_hr`, 0.6). -/
theorem C4_counterexample :
    analyze_email nerEmpty emailCandidateResume = Except.ok nlpCandidateResume ∧
    classify_email emailCandidateResume nlpCandidateResume =
      Except.ok ("general_hr", (6:ℚ)/10) ∧
    classify_with_llm (fun _ => none) emailCandidateResume =
      { category := "unknown", confidence := 0, reason := "LLM error" } ∧
    ("unknown", (0:ℚ)) ≠ ("general_hr", (6:ℚ)/10) :=
  ⟨rfl, rfl, rfl, by decide⟩

/-- C4 (amended): when every remote call fails, `classify_with_llm` swallows
the failure and returns the fixed dict with category `unknown` and
confidence 0 — not the pre-escalation classification — and no error is
propagated to the caller. -/
theorem C4_llm_failure_returns_unknown (service : String → Option LlmResult)
    (hfail : ∀ p, service p = none) (email : Email) :
    classify_with_llm service email =
      { category := "unknown", confidence := 0, reason := "LLM error" } := by
  obtain ⟨fa, fn, su, bp⟩ := email
  cases su with
  | none => rfl
  | some s =>
    cases bp with
    | none => rfl
    | some b =>
      simp only [classify_with_llm, dictGet, hfail]
      rfl

/-- Witness for C4: the always-failing service on the concrete email. -/
theorem C4_llm_failure_returns_unknown_witness :
    classify_with_llm (fun _ => none) emailCandidateResume =
      { category := "unknown", confidence := 0, reason := "LLM error" } :=
  C4_llm_failure_returns_unknown (fun _ => none) (fun _ => rfl) emailCandidateResume

/-! Malformed-input claims. -/

/-- Counterexample to C6: a message with no sender address makes
`quick_filter` raise `KeyError`, and a message with no subject makes
`analyze_email` raise `KeyError` — absent fields are not treated as empty
strings. -/
theorem C6_counterexample :
    quick_filter { from_name := some "x", subject := some "s", body_preview := some "" } =
      Except.error "KeyError: from_address" ∧
    analyze_email nerEmpty
      { from_address := some "a@b.c", from_name := some "", body_preview := some "" } =
      Except.error "KeyError: subject" :=
  ⟨rfl, rfl⟩

/-- C6 (amended): the Quick Filter and the Signal Extractor index the
sender-address and subject keys directly, so a message lacking
`from_address` makes `quick_filter` raise `KeyError: from_address` and a
message lacking `subject` makes `analyze_email` raise `KeyError: subject`;
they do not degrade to an empty-string reading. -/
theorem C6_missing_fields_raise :
    (∀ email : Email, email.from_address = none →
        quick_filter email = Except.error "KeyError: from_address") ∧
    (∀ (ner : String → Entities) (email : Email), email.subject = none →
        analyze_email ner email = Except.error "KeyError: subject") := by
  constructor
  · intro email h
    obtain ⟨fa, fn, su, bp⟩ := email
    cases fa with
    | none => rfl
    | some s => exact Option.noConfusion h
  · intro ner email h
    obtain ⟨fa, fn, su, bp⟩ := email
    cases su with
    | none => rfl
    | some s => exact Option.noConfusion h

/-- Witness for C6: concrete messages missing those keys. -/
theorem C6_missing_fields_raise_witness :
    quick_filter { subject := some "hello", body_preview := some "b" } =
      Except.error "KeyError: from_address" ∧
    analyze_email nerEmpty
      { from_address := some "x@y.z", from_name := some "n", body_preview := some "b" } =
      Except.error "KeyError: subject" :=
  ⟨C6_missing_fields_raise.1 _ rfl, C6_missing_fields_raise.2 nerEmpty _ rfl⟩

/-! Keyword-density claims. -/

/-- Email whose single text token contains two job keywords
(`application`, `interview`) as substrings. -/
def emailDenseToken : Email :=
  { from_address := some "a@b.c", from_name := some "",
    subject := some "applicationinterview", body_preview := some "" }

/-- The `analyze_email` output for `emailDenseToken` under `nerEmpty`:
two keywords over one token. -/
def nlpDenseToken : NlpResult :=
  { entities := { organizations := [], persons := [], dates := [] }
    keyword_count := 2
    keyword_density := 2
    sender_signals := { is_recruiter := false, is_big_tech := false, is_automated := false }
    is_likely_job_related := true }

/-- Counterexample to C5: the keyword density of `emailDenseToken` is 2,
outside [0,1] — keywords are counted by substring containment, so one
token can contribute several keywords. -/
theorem C5_counterexample :
    analyze_email nerEmpty emailDenseToken = Except.ok nlpDenseToken ∧
    nlpDenseToken.keyword_density = 2 ∧ ¬((2:ℚ) ≤ 1) :=
  ⟨rfl, rfl, by decide⟩

/-- C5 (amended): the density computation never divides by zero — the
denominator `max(token count, 1)` is at least 1, so the density is
non-negative and bounded by the keyword count (at most the 15 keywords of
`JOB_KEYWORDS`) — but it is not bounded by 1. -/
theorem C5_density_bounds (ner : String → Entities) (email : Email)
    (r : NlpResult) (h : analyze_email ner email = Except.ok r) :
    0 ≤ r.keyword_density ∧ r.keyword_density ≤ (r.keyword_count : ℚ) ∧
      r.keyword_count ≤ JOB_KEYWORDS.length := by
  obtain ⟨fa, fn, su, bp⟩ := email
  cases su with
  | none => exact Except.noConfusion h
  | some s =>
    cases bp with
    | none => exact Except.noConfusion h
    | some b =>
      cases fa with
      | none => exact Except.noConfusion h
      | some f =>
        injection h with h
        subst h
        refine ⟨?_, ?_, ?_⟩
        · exact div_nonneg (by positivity) (by positivity)
        · refine div_le_self (by positivity) ?_
          exact_mod_cast Nat.le_max_right _ 1
        · exact List.length_filter_le _ _

/-- Witness for C5 at the concrete dense-token email: density 2 ≤ count 2
≤ 15. -/
theorem C5_density_bounds_witness :
    0 ≤ nlpDenseToken.keyword_density ∧
    nlpDenseToken.keyword_density = 2 ∧
    nlpDenseToken.keyword_density ≤ (nlpDenseToken.keyword_count : ℚ) ∧
    nlpDenseToken.keyword_count ≤ JOB_KEYWORDS.length :=
  have h := C5_density_bounds nerEmpty emailDenseToken nlpDenseToken rfl
  ⟨h.1, rfl, h.2.1, h.2.2⟩

/-! Classification-invariant claims. -/

/-- Email whose text matches the weak `interview` pattern (length 9, so
confidence 0.8) while the NER finds no entities. -/
def emailInterview : Email :=
  { from_address := some "bob@x.com", from_name := some "",
    subject := some "interview", body_preview := some "" }

/-- The `analyze_email` output for `emailInterview` under `nerEmpty`: no
entities, one keyword, not likely job related. -/
def nlpInterview : NlpResult :=
  { entities := { organizations := [], persons := [], dates := [] }
    keyword_count := 1
    keyword_density := 1
    sender_signals := { is_recruiter := false, is_big_tech := false, is_automated := false }
    is_likely_job_related := false }

/-- Counterexample to C1: the message `interview` classifies as
`interview_invite` at confidence 0.8 with every entity field empty —
a category outside {not_job_related, unknown} with neither a non-empty
entity field nor a confidence below 0.5. -/
theorem C1_counterexample :
    analyze_email nerEmpty emailInterview = Except.ok nlpInterview ∧
    classify_email emailInterview nlpInterview =
      Except.ok ("interview_invite", (8:ℚ)/10) ∧
    nlpInterview.entities.organizations = [] ∧
    nlpInterview.entities.persons = [] ∧
    nlpInterview.entities.dates = [] ∧
    ¬((8:ℚ)/10 < 1/2) ∧
    "interview_invite" ≠ "not_job_related" ∧ "interview_invite" ≠ "unknown" :=
  ⟨rfl, rfl, rfl, rfl, rfl, by decide, by decide, by decide⟩

/-- A classification with category outside {not_job_related, unknown}
carries confidence at least 0.6, and carries exactly 0.6 only on the
`general_hr` fallback, which requires `is_likely_job_related`. -/
theorem classify_core_bound (text : String) (nlp : NlpResult) (cat : String)
    (conf : ℚ) (h : classify_core text nlp = (cat, conf))
    (h1 : cat ≠ "not_job_related") :
    (6:ℚ)/10 ≤ conf ∧
      (conf = 6/10 → cat = "general_hr" ∧ nlp.is_likely_job_related = true) := by
  unfold classify_core at h
  cases hfind : PATTERNS.findSome? (fun cp =>
      cp.2.findSome? (fun pattern =>
        if re_search pattern text then
          some (cp.1, if pattern.length > 20 then (9 : ℚ)/10 else (8 : ℚ)/10)
        else none)) with
  | some result =>
    rw [hfind] at h
    obtain ⟨cp, _, hres⟩ := List.exists_of_findSome?_eq_some hfind
    obtain ⟨p, _, hpres⟩ := List.exists_of_findSome?_eq_some hres
    split at hpres
    · injection hpres with hpres
      injection hpres.trans h with hc hf
      subst hf
      constructor
      · by_cases hlen : p.length > 20
        · rw [if_pos hlen]; norm_num
        · rw [if_neg hlen]; norm_num
      · intro he
        by_cases hlen : p.length > 20
        · rw [if_pos hlen] at he; norm_num at he
        · rw [if_neg hlen] at he; norm_num at he
    · exact Option.noConfusion hpres
  | none =>
    rw [hfind] at h
    cases hl : nlp.is_likely_job_related with
    | true =>
      rw [hl] at h
      rw [if_pos rfl] at h
      injection h with hc hconf
      subst hc
      subst hconf
      exact ⟨le_refl _, fun _ => ⟨rfl, rfl⟩⟩
    | false =>
      rw [hl] at h
      rw [if_neg (by simp)] at h
      injection h with hc _
      exact absurd hc.symm h1

/-- C1 (amended): every classification outcome with category outside
{not_job_related, unknown} has confidence at least 0.6 — 0.9 or 0.8 from a
matched pattern, or exactly 0.6 from the `general_hr` fallback which fires
only when `is_likely_job_related` holds; the entity fields may
nevertheless all be empty, so the claimed disjunction (non-empty entities
or confidence below 0.5) does not hold. -/
theorem C1_high_confidence_low_signal (email : Email) (nlp : NlpResult)
    (cat : String) (conf : ℚ)
    (h : classify_email email nlp = Except.ok (cat, conf))
    (h1 : cat ≠ "not_job_related") (_h2 : cat ≠ "unknown") :
    (6:ℚ)/10 ≤ conf ∧
      (conf = 6/10 → cat = "general_hr" ∧ nlp.is_likely_job_related = true) := by
  obtain ⟨fa, fn, su, bp⟩ := email
  cases su with
  | none => exact Except.noConfusion h
  | some s =>
    cases bp with
    | none => exact Except.noConfusion h
    | some b =>
      injection h with h
      exact classify_core_bound _ nlp cat conf h h1

/-- Witness for C1: the general_hr fallback at the concrete email with two
keywords and no entities sits exactly at confidence 0.6 with
`is_likely_job_related` true. -/
theorem C1_high_confidence_low_signal_witness :
    (6:ℚ)/10 ≤ 6/10 ∧
      ((6:ℚ)/10 = 6/10 → "general_hr" = "general_hr" ∧
        nlpCandidateResume.is_likely_job_related = true) :=
  C1_high_confidence_low_signal emailCandidateResume nlpCandidateResume
    "general_hr" ((6:ℚ)/10) rfl (by decide) (by decide)

/-! Identity-matcher claims. -/

/-- Tracked application at company Acme. -/
def app_a1 : Application := { id := "a1", company_name := "Acme" }

/-- Tracked application at company Globex. -/
def app_a2 : Application := { id := "a2", company_name := "Globex" }

/-- Tracked application whose company matches no candidate. -/
def appUmbrella : Application := { id := "a0", company_name := "Umbrella" }

/-- Email from initech.com whose extracted organizations are Acme and
Globex: the candidate set is [acme, globex, initech]. -/
def emailTwoOrgs : Email :=
  { from_address := some "contact@initech.com", from_name := some "",
    subject := some "s", body_preview := some "" }

/-- NLP result carrying the organizations Acme and Globex. -/
def nlpTwoOrgs : NlpResult :=
  { entities := { organizations := ["Acme", "Globex"], persons := [], dates := [] }
    keyword_count := 0
    keyword_density := 0
    sender_signals := { is_recruiter := false, is_big_tech := false, is_automated := false }
    is_likely_job_related := false }

/-- Counterexample to C7: both tracked applications have an exact
lower-cased candidate-set match, but the matcher returns only the first
one (`a1`), so it is not true that every exact-matching application is
returned. -/
theorem C7_counterexample :
    email_companies_of emailTwoOrgs nlpTwoOrgs =
      Except.ok ["acme", "globex", "initech"] ∧
    pyLower app_a2.company_name ∈ ["acme", "globex", "initech"] ∧
    match_email_to_application (fun _ _ => 0) emailTwoOrgs [app_a1, app_a2] nlpTwoOrgs =
      Except.ok (some app_a1.id, (95:ℚ)/100) ∧
    app_a1.id ≠ app_a2.id :=
  ⟨rfl, by decide, rfl, by decide⟩

/-- The application loop returns the first exact candidate-set hit at
confidence 0.95, for any fuzzy-score accumulator. -/
theorem matchLoop_first_exact (f : String → String → ℚ) (cs : List String)
    (app : Application) (post : List Application)
    (happ : cs.contains (pyLower app.company_name) = true) :
    ∀ (pre : List Application) (acc : Option String × ℚ),
      (∀ b ∈ pre, cs.contains (pyLower b.company_name) = false) →
      matchLoop f cs (pre ++ app :: post) acc = (some app.id, (95:ℚ)/100) := by
  intro pre
  induction pre with
  | nil =>
    intro acc _
    simp only [List.nil_append, matchLoop, happ]
    simp
  | cons b pre ih =>
    intro acc hpre
    have hb : cs.contains (pyLower b.company_name) = false := hpre b (by simp)
    simp only [List.cons_append, matchLoop, hb, Bool.false_eq_true, if_false]
    exact ih _ (fun x hx => hpre x (by simp [hx]))

/-- C7 (amended): the matcher returns the FIRST application in iteration
order whose lower-cased company name is exactly in the candidate set, at
confidence exactly 0.95, regardless of any fuzzy similarity score (the
fuzzy branch never short-circuits); in particular, when exactly one
application exact-matches, that application is returned. A later
exact-matching application is not returned when an earlier one matches. -/
theorem C7_first_exact_match_wins (f : String → String → ℚ) (email : Email)
    (nlp : NlpResult) (cs : List String)
    (hcs : email_companies_of email nlp = Except.ok cs)
    (pre post : List Application) (app : Application)
    (hpre : ∀ b ∈ pre, cs.contains (pyLower b.company_name) = false)
    (happ : cs.contains (pyLower app.company_name) = true) :
    match_email_to_application f email (pre ++ app :: post) nlp =
      Except.ok (some app.id, (95:ℚ)/100) := by
  simp only [match_email_to_application, hcs]
  show Except.ok (matchLoop f cs (pre ++ app :: post) (none, 0)) = _
  rw [matchLoop_first_exact f cs app post happ pre (none, 0) hpre]

/-- Witness for C7: with a non-matching application first, an
exact-matching one second, another exact-matching one third, and a fuzzy
score of 100 everywhere, the second application is returned at 0.95. -/
theorem C7_first_exact_match_wins_witness :
    match_email_to_application (fun _ _ => 100) emailTwoOrgs
        [appUmbrella, app_a1, app_a2] nlpTwoOrgs =
      Except.ok (some app_a1.id, (95:ℚ)/100) :=
  C7_first_exact_match_wins (fun _ _ => 100) emailTwoOrgs nlpTwoOrgs
    ["acme", "globex", "initech"] rfl [appUmbrella] [app_a2] app_a1
    (by decide) (by decide)

end Orbit
